import Mathlib

/-!
Shallow embedding of the piston `input` crate (src/input/src/lib.rs) and of
the generic-event extraction contract its spec describes.

The repository ships only `lib.rs`; the modules it declares
(`generic_event`, `event`, the per-kind trait modules, and the
`keyboard`/`mouse`/`joystick` leaf-data modules) are not present, so those
parts are modelled from the specification and marked as such in their doc
comments.  Everything in `lib.rs` itself (EventId and its 14 constants,
`Button`, `Motion`, `Input`, the five `From` impls) is translated directly.
-/

/-- Model of an IEEE-754 double (`f64`) at the precision these claims need:
a finite value (carried as a rational), the two infinities, or NaN.
No claim in scope performs float arithmetic; only equality semantics
(NaN is not equal to itself under Rust `PartialEq`) and finiteness matter. -/
inductive F64
  | finite (q : Rat)
  | inf
  | negInf
  | nan
deriving DecidableEq

/-- Rust `PartialEq` on `f64`: NaN compares unequal to everything,
including itself; infinities compare equal to themselves; finite values
compare by value. -/
def f64Beq : F64 → F64 → Bool
  | F64.finite a, F64.finite b => decide (a = b)
  | F64.inf, F64.inf => true
  | F64.negInf, F64.negInf => true
  | _, _ => false

/-- Whether the double is a finite value (not NaN, not an infinity). -/
def F64.isFinite : F64 → Bool
  | F64.finite _ => true
  | _ => false

/-- Modelled from the spec: keyboard key code (the `keyboard` module is
declared in lib.rs but its source is not in the repository; the spec treats
it as an out-of-scope flat leaf type). -/
structure Key where
  code : Nat
deriving DecidableEq

/-- Modelled from the spec: mouse button enumeration (the `mouse` module
source is not in the repository; plain flat data per §1 of the spec). -/
inductive MouseButton
  | Unknown
  | Left
  | Right
  | Middle
deriving DecidableEq

/-- Modelled from the spec: joystick button (the `joystick` module source is
not in the repository; plain flat data per §1 of the spec). -/
structure JoystickButton where
  id : Nat
  button : Nat
deriving DecidableEq

/-- Modelled from the spec: joystick axis reading (the `joystick` module
source is not in the repository). -/
structure JoystickAxisArgs where
  id : Nat
  axis : Nat
  position : F64
deriving DecidableEq

/-- Modelled from the spec: update-tick args, a small record carrying a
delta-time (§3, per-kind Args; the `update` module source is missing). -/
structure UpdateArgs where
  dt : F64
deriving DecidableEq

/-- Modelled from the spec: render-tick args carrying a delta-time and frame
metadata (the `render` module source is missing). -/
structure RenderArgs where
  ext_dt : F64
  width : Nat
  height : Nat
deriving DecidableEq

/-- Modelled from the spec: after-render-tick args (the `after_render`
module source is missing; no payload fields are specified). -/
structure AfterRenderArgs where
deriving DecidableEq

/-- Modelled from the spec: idle-tick args carrying a delta-time (the
`idle` module source is missing). -/
structure IdleArgs where
  dt : F64
deriving DecidableEq

/-- `pub struct EventId(pub &'static str);` — used to identify events
arguments provided by traits.  Derived `PartialEq`/`Eq` compare the string
content; the single field is public. -/
structure EventId where
  token : String
deriving DecidableEq

/-- `const FOCUS: EventId = EventId("piston/focus");` -/
def FOCUS : EventId := EventId.mk "piston/focus"

/-- `const CURSOR: EventId = EventId("piston/cursor");` -/
def CURSOR : EventId := EventId.mk "piston/cursor"

/-- `const RESIZE: EventId = EventId("piston/resize");` -/
def RESIZE : EventId := EventId.mk "piston/resize"

/-- `const TEXT: EventId = EventId("piston/text");` -/
def TEXT : EventId := EventId.mk "piston/text"

/-- `const MOUSE_SCROLL: EventId = EventId("piston/mouse_scroll");` -/
def MOUSE_SCROLL : EventId := EventId.mk "piston/mouse_scroll"

/-- `const MOUSE_RELATIVE: EventId = EventId("piston/mouse_relative");` -/
def MOUSE_RELATIVE : EventId := EventId.mk "piston/mouse_relative"

/-- `const MOUSE_CURSOR: EventId = EventId("piston/mouse_cursor");` -/
def MOUSE_CURSOR : EventId := EventId.mk "piston/mouse_cursor"

/-- `const JOYSTICK_AXIS: EventId = EventId("piston/joystick_axis");` -/
def JOYSTICK_AXIS : EventId := EventId.mk "piston/joystick_axis"

/-- `const RELEASE: EventId = EventId("piston/release");` -/
def RELEASE : EventId := EventId.mk "piston/release"

/-- `const PRESS: EventId = EventId("piston/press");` -/
def PRESS : EventId := EventId.mk "piston/press"

/-- `const IDLE: EventId = EventId("piston/idle");` -/
def IDLE : EventId := EventId.mk "piston/idle"

/-- `const AFTER_RENDER: EventId = EventId("piston/after_render");` -/
def AFTER_RENDER : EventId := EventId.mk "piston/after_render"

/-- `const RENDER: EventId = EventId("piston/render");` -/
def RENDER : EventId := EventId.mk "piston/render"

/-- `const UPDATE: EventId = EventId("piston/update");` -/
def UPDATE : EventId := EventId.mk "piston/update"

/-- The 14 `EventId` constants of lib.rs, in source order. -/
def allEventIds : List EventId :=
  [FOCUS, CURSOR, RESIZE, TEXT, MOUSE_SCROLL, MOUSE_RELATIVE, MOUSE_CURSOR,
   JOYSTICK_AXIS, RELEASE, PRESS, IDLE, AFTER_RENDER, RENDER, UPDATE]

/-- `pub enum Button` — models different kinds of buttons
(derives Copy, Clone, PartialEq, Eq, Hash in the source). -/
inductive Button
  | Keyboard (key : Key)
  | Mouse (button : MouseButton)
  | Joystick (button : JoystickButton)
deriving DecidableEq

/-- `pub enum Motion` — models different kinds of motion
(derives Copy, Clone, PartialEq in the source; no Eq, because of `f64`). -/
inductive Motion
  | MouseCursor (x y : F64)
  | MouseRelative (x y : F64)
  | MouseScroll (x y : F64)
  | JoystickAxis (args : JoystickAxisArgs)
deriving DecidableEq

/-- `pub enum Input` — models input events. -/
inductive Input
  | Press (button : Button)
  | Release (button : Button)
  | Move (motion : Motion)
  | Text (text : String)
  | Resize (width height : Nat)
  | Focus (focus : Bool)
  | Cursor (cursor : Bool)
deriving DecidableEq

/-- `impl From<Key> for Button` — wraps the key in `Button::Keyboard`. -/
def Button.fromKey (key : Key) : Button := Button.Keyboard key

/-- `impl From<MouseButton> for Button` — wraps in `Button::Mouse`. -/
def Button.fromMouseButton (btn : MouseButton) : Button := Button.Mouse btn

/-- `impl From<JoystickButton> for Button` — wraps in `Button::Joystick`. -/
def Button.fromJoystickButton (btn : JoystickButton) : Button := Button.Joystick btn

/-- `impl From<JoystickAxisArgs> for Motion` — wraps in `Motion::JoystickAxis`. -/
def Motion.fromJoystickAxisArgs (args : JoystickAxisArgs) : Motion :=
  Motion.JoystickAxis args

/-- `impl From<Motion> for Input` — wraps in `Input::Move`. -/
def Input.fromMotion (motion : Motion) : Input := Input.Move motion

/-- Payload extraction out of the `Button::Keyboard` variant. -/
def Button.asKeyboard : Button → Option Key
  | Button.Keyboard k => some k
  | _ => none

/-- Payload extraction out of the `Button::Mouse` variant. -/
def Button.asMouse : Button → Option MouseButton
  | Button.Mouse m => some m
  | _ => none

/-- Payload extraction out of the `Button::Joystick` variant. -/
def Button.asJoystick : Button → Option JoystickButton
  | Button.Joystick j => some j
  | _ => none

/-- Payload extraction out of the `Motion::JoystickAxis` variant. -/
def Motion.asJoystickAxis : Motion → Option JoystickAxisArgs
  | Motion.JoystickAxis a => some a
  | _ => none

/-- Payload extraction out of the `Input::Move` variant. -/
def Input.asMove : Input → Option Motion
  | Input.Move m => some m
  | _ => none

/-- Rust derived `PartialEq` on `Button`: structural comparison. -/
def buttonBeq : Button → Button → Bool
  | Button.Keyboard a, Button.Keyboard b => decide (a = b)
  | Button.Mouse a, Button.Mouse b => decide (a = b)
  | Button.Joystick a, Button.Joystick b => decide (a = b)
  | _, _ => false

/-- Discriminant-style code for `MouseButton`, used by the hash model. -/
def MouseButton.code : MouseButton → Nat
  | MouseButton.Unknown => 0
  | MouseButton.Left => 1
  | MouseButton.Right => 2
  | MouseButton.Middle => 3

/-- Model of the derived `Hash` on `Button`: a pure structural function of
the discriminant and the payload fields. -/
def buttonHash : Button → Nat
  | Button.Keyboard k => 3 * k.code
  | Button.Mouse m => 3 * m.code + 1
  | Button.Joystick j => 3 * (2 ^ j.id * 3 ^ j.button) + 2

/-- Rust derived `PartialEq` on `JoystickAxisArgs` (field-wise; the `f64`
position field uses float equality). -/
def joystickAxisArgsBeq (a b : JoystickAxisArgs) : Bool :=
  decide (a.id = b.id) && decide (a.axis = b.axis) && f64Beq a.position b.position

/-- Rust derived `PartialEq` on `Motion`: same variant and field-wise float
equality on the coordinates. -/
def motionBeq : Motion → Motion → Bool
  | Motion.MouseCursor x y, Motion.MouseCursor x2 y2 => f64Beq x x2 && f64Beq y y2
  | Motion.MouseRelative x y, Motion.MouseRelative x2 y2 => f64Beq x x2 && f64Beq y y2
  | Motion.MouseScroll x y, Motion.MouseScroll x2 y2 => f64Beq x x2 && f64Beq y y2
  | Motion.JoystickAxis a, Motion.JoystickAxis b => joystickAxisArgsBeq a b
  | _, _ => false

/-- Whether the coordinate fields of the `MouseCursor`, `MouseRelative` and
`MouseScroll` variants are all finite (the `JoystickAxis` variant carries no
coordinate fields in the sense of the spec sentence). -/
def Motion.mouseCoordsFinite : Motion → Bool
  | Motion.MouseCursor x y => x.isFinite && y.isFinite
  | Motion.MouseRelative x y => x.isFinite && y.isFinite
  | Motion.MouseScroll x y => x.isFinite && y.isFinite
  | Motion.JoystickAxis _ => true

/-- Modelled from the spec: the closed, enumerable set of 14 semantic event
kinds (§3, glossary).  The `generic_event` module and the per-kind trait
modules are not present in the repository sources. -/
inductive Kind
  | focus
  | cursor
  | resize
  | text
  | mouseScroll
  | mouseRelative
  | mouseCursor
  | joystickAxis
  | release
  | press
  | idle
  | afterRender
  | render
  | update
deriving DecidableEq

/-- Modelled from the spec: the fixed kind → `EventId` mapping (§3). -/
def Kind.id : Kind → EventId
  | Kind.focus => FOCUS
  | Kind.cursor => CURSOR
  | Kind.resize => RESIZE
  | Kind.text => TEXT
  | Kind.mouseScroll => MOUSE_SCROLL
  | Kind.mouseRelative => MOUSE_RELATIVE
  | Kind.mouseCursor => MOUSE_CURSOR
  | Kind.joystickAxis => JOYSTICK_AXIS
  | Kind.release => RELEASE
  | Kind.press => PRESS
  | Kind.idle => IDLE
  | Kind.afterRender => AFTER_RENDER
  | Kind.render => RENDER
  | Kind.update => UPDATE

/-- All 14 kinds, mirroring the order of the id constants in lib.rs. -/
def allKinds : List Kind :=
  [Kind.focus, Kind.cursor, Kind.resize, Kind.text, Kind.mouseScroll,
   Kind.mouseRelative, Kind.mouseCursor, Kind.joystickAxis, Kind.release,
   Kind.press, Kind.idle, Kind.afterRender, Kind.render, Kind.update]

/-- Look up the kind registered under an id, by `EventId` equality
(string content). -/
def kindOfId (id : EventId) : Option Kind :=
  allKinds.find? fun k => decide (k.id = id)

/-- Modelled from the spec: the untyped payload passed through the generic
contract, standing for the `&Any`-style opaque payload of `from_args` and
the typed view of `with_args` (§4.4).  One constructor per payload type;
kinds that share a Rust payload type share a constructor (press/release
both carry a `Button`, the three mouse-motion kinds carry coordinate
pairs, focus/cursor carry a flag). -/
inductive Payload
  | button (b : Button)
  | coords (x y : F64)
  | flag (b : Bool)
  | text (s : String)
  | size (w h : Nat)
  | joystickAxis (a : JoystickAxisArgs)
  | update (a : UpdateArgs)
  | render (a : RenderArgs)
  | afterRender (a : AfterRenderArgs)
  | idle (a : IdleArgs)
deriving DecidableEq

/-- Modelled from the spec: whether a payload has the type the kind's typed
getter and constructor expect (the static typing of the per-kind traits). -/
def payloadShapeOk : Kind → Payload → Bool
  | Kind.press, Payload.button _ => true
  | Kind.release, Payload.button _ => true
  | Kind.mouseCursor, Payload.coords _ _ => true
  | Kind.mouseRelative, Payload.coords _ _ => true
  | Kind.mouseScroll, Payload.coords _ _ => true
  | Kind.joystickAxis, Payload.joystickAxis _ => true
  | Kind.text, Payload.text _ => true
  | Kind.resize, Payload.size _ _ => true
  | Kind.focus, Payload.flag _ => true
  | Kind.cursor, Payload.flag _ => true
  | Kind.update, Payload.update _ => true
  | Kind.render, Payload.render _ => true
  | Kind.afterRender, Payload.afterRender _ => true
  | Kind.idle, Payload.idle _ => true
  | _, _ => false

/-- Modelled from the spec: the `GenericEvent` capability (§4.4).  A host
aggregate type exposes `event_id` (which semantic kind the value currently
represents), `with_args` (id-gated typed view of the payload: `Some` when
the requested id matches the current kind, `None` otherwise), and
`from_args` (rebuild from an id, an opaque payload and an old value of the
same concrete type). -/
structure GenericEvent (E : Type) where
  event_id : E → EventId
  with_args : E → EventId → Option Payload
  from_args : EventId → Payload → E → Option E

/-- Modelled from the spec: the contract §4.4 imposes on an implementation —
`with_args` answers `None` exactly off the current kind, and a successful
`from_args` yields a value tagged with the requested id and carrying the
given payload. -/
structure LawfulGenericEvent {E : Type} (g : GenericEvent E) : Prop where
  with_args_mismatch : ∀ e id, g.event_id e ≠ id → g.with_args e id = none
  with_args_match : ∀ e, (g.with_args e (g.event_id e)).isSome = true
  from_args_id : ∀ id p old e, g.from_args id p old = some e → g.event_id e = id
  from_args_payload : ∀ id p old e, g.from_args id p old = some e →
    g.with_args e id = some p

/-- Modelled from the spec: the uniform per-kind typed getter (§4.4) —
`self.with_args(KIND_ID, typed clone)`, written kind-indexed: query
`with_args` at the kind's id and keep the payload only when it has the
kind's payload type. -/
def kindGetter {E : Type} (g : GenericEvent E) (k : Kind) (e : E) : Option Payload :=
  (g.with_args e k.id).bind fun p => if payloadShapeOk k p then some p else none

/-- Modelled from the spec: the per-kind typed constructor
`from_press(button, old) = Self::from_args(PRESS, &button, old)` (§4.4). -/
def from_press {E : Type} (g : GenericEvent E) (b : Button) (old : E) : Option E :=
  g.from_args PRESS (Payload.button b) old

/-- Modelled from the spec: the per-kind typed constructor
`from_resize(w, h, old) = Self::from_args(RESIZE, &(w, h), old)` (§4.4). -/
def from_resize {E : Type} (g : GenericEvent E) (w h : Nat) (old : E) : Option E :=
  g.from_args RESIZE (Payload.size w h) old

/-- Modelled from the spec: the active variant of a host aggregate event
value, one constructor per kind with that kind's typed payload (§3, host
aggregate event type). -/
inductive EventVariant
  | focus (b : Bool)
  | cursor (b : Bool)
  | resize (w h : Nat)
  | text (s : String)
  | mouseScroll (x y : F64)
  | mouseRelative (x y : F64)
  | mouseCursor (x y : F64)
  | joystickAxis (a : JoystickAxisArgs)
  | release (b : Button)
  | press (b : Button)
  | idle (a : IdleArgs)
  | afterRender (a : AfterRenderArgs)
  | render (a : RenderArgs)
  | update (a : UpdateArgs)
deriving DecidableEq

/-- The kind a host-event variant represents. -/
def variantKind : EventVariant → Kind
  | EventVariant.focus _ => Kind.focus
  | EventVariant.cursor _ => Kind.cursor
  | EventVariant.resize _ _ => Kind.resize
  | EventVariant.text _ => Kind.text
  | EventVariant.mouseScroll _ _ => Kind.mouseScroll
  | EventVariant.mouseRelative _ _ => Kind.mouseRelative
  | EventVariant.mouseCursor _ _ => Kind.mouseCursor
  | EventVariant.joystickAxis _ => Kind.joystickAxis
  | EventVariant.release _ => Kind.release
  | EventVariant.press _ => Kind.press
  | EventVariant.idle _ => Kind.idle
  | EventVariant.afterRender _ => Kind.afterRender
  | EventVariant.render _ => Kind.render
  | EventVariant.update _ => Kind.update

/-- The payload a host-event variant carries. -/
def variantPayload : EventVariant → Payload
  | EventVariant.focus b => Payload.flag b
  | EventVariant.cursor b => Payload.flag b
  | EventVariant.resize w h => Payload.size w h
  | EventVariant.text s => Payload.text s
  | EventVariant.mouseScroll x y => Payload.coords x y
  | EventVariant.mouseRelative x y => Payload.coords x y
  | EventVariant.mouseCursor x y => Payload.coords x y
  | EventVariant.joystickAxis a => Payload.joystickAxis a
  | EventVariant.release b => Payload.button b
  | EventVariant.press b => Payload.button b
  | EventVariant.idle a => Payload.idle a
  | EventVariant.afterRender a => Payload.afterRender a
  | EventVariant.render a => Payload.render a
  | EventVariant.update a => Payload.update a

/-- Build the variant a kind and a payload describe, `none` when the
payload does not have the kind's payload type (the caller-side contract
violation the spec's §9 open question leaves undefined — modelled as the
absent-result outcome). -/
def mkPayloadVariant : Kind → Payload → Option EventVariant
  | Kind.focus, Payload.flag b => some (EventVariant.focus b)
  | Kind.cursor, Payload.flag b => some (EventVariant.cursor b)
  | Kind.resize, Payload.size w h => some (EventVariant.resize w h)
  | Kind.text, Payload.text s => some (EventVariant.text s)
  | Kind.mouseScroll, Payload.coords x y => some (EventVariant.mouseScroll x y)
  | Kind.mouseRelative, Payload.coords x y => some (EventVariant.mouseRelative x y)
  | Kind.mouseCursor, Payload.coords x y => some (EventVariant.mouseCursor x y)
  | Kind.joystickAxis, Payload.joystickAxis a => some (EventVariant.joystickAxis a)
  | Kind.release, Payload.button b => some (EventVariant.release b)
  | Kind.press, Payload.button b => some (EventVariant.press b)
  | Kind.idle, Payload.idle a => some (EventVariant.idle a)
  | Kind.afterRender, Payload.afterRender a => some (EventVariant.afterRender a)
  | Kind.render, Payload.render a => some (EventVariant.render a)
  | Kind.update, Payload.update a => some (EventVariant.update a)
  | _, _ => none

/-- Modelled from the spec: a host aggregate event type carrying one active
kind payload plus custom host context (§3 "host aggregate event type",
§8 identity-preservation example). -/
structure HostEvent where
  variant : EventVariant
  ctx : Nat
deriving DecidableEq

/-- `event_id` of the host aggregate: the id of its active variant's kind. -/
def hostEventId (e : HostEvent) : EventId := (variantKind e.variant).id

/-- `with_args` of the host aggregate: the typed payload view when the
requested id matches the active variant's kind, `none` otherwise. -/
def hostWithArgs (e : HostEvent) (id : EventId) : Option Payload :=
  if id = (variantKind e.variant).id then some (variantPayload e.variant) else none

/-- `from_args` of the host aggregate: rebuild around the requested kind's
new payload, preserving the custom context the old value carried. -/
def hostFromArgs (id : EventId) (p : Payload) (old : HostEvent) : Option HostEvent :=
  (kindOfId id).bind fun k =>
    (mkPayloadVariant k p).map fun v => { old with variant := v }

/-- The host aggregate's `GenericEvent` implementation. -/
def hostGE : GenericEvent HostEvent :=
  { event_id := hostEventId, with_args := hostWithArgs, from_args := hostFromArgs }

/-- Modelled from the spec: a minimal host aggregate that only ever carries
an `Input` (§4.4 edge cases): it supports the ten input-derived kinds and
cannot represent the four tick kinds (update, render, after-render, idle). -/
structure InputEvent where
  input : Input
deriving DecidableEq

/-- The kind an `Input` value represents (motion values split into the four
motion kinds, matching the four motion event ids). -/
def inputKind : Input → Kind
  | Input.Press _ => Kind.press
  | Input.Release _ => Kind.release
  | Input.Move (Motion.MouseCursor _ _) => Kind.mouseCursor
  | Input.Move (Motion.MouseRelative _ _) => Kind.mouseRelative
  | Input.Move (Motion.MouseScroll _ _) => Kind.mouseScroll
  | Input.Move (Motion.JoystickAxis _) => Kind.joystickAxis
  | Input.Text _ => Kind.text
  | Input.Resize _ _ => Kind.resize
  | Input.Focus _ => Kind.focus
  | Input.Cursor _ => Kind.cursor

/-- The payload an `Input` value carries, as the generic contract sees it. -/
def inputPayload : Input → Payload
  | Input.Press b => Payload.button b
  | Input.Release b => Payload.button b
  | Input.Move (Motion.MouseCursor x y) => Payload.coords x y
  | Input.Move (Motion.MouseRelative x y) => Payload.coords x y
  | Input.Move (Motion.MouseScroll x y) => Payload.coords x y
  | Input.Move (Motion.JoystickAxis a) => Payload.joystickAxis a
  | Input.Text s => Payload.text s
  | Input.Resize w h => Payload.size w h
  | Input.Focus b => Payload.flag b
  | Input.Cursor b => Payload.flag b

/-- Build the `Input` a kind and payload describe; the four tick kinds are
not representable and yield `none`, as does a payload of the wrong type. -/
def mkInput : Kind → Payload → Option Input
  | Kind.press, Payload.button b => some (Input.Press b)
  | Kind.release, Payload.button b => some (Input.Release b)
  | Kind.mouseCursor, Payload.coords x y => some (Input.Move (Motion.MouseCursor x y))
  | Kind.mouseRelative, Payload.coords x y => some (Input.Move (Motion.MouseRelative x y))
  | Kind.mouseScroll, Payload.coords x y => some (Input.Move (Motion.MouseScroll x y))
  | Kind.joystickAxis, Payload.joystickAxis a => some (Input.Move (Motion.JoystickAxis a))
  | Kind.text, Payload.text s => some (Input.Text s)
  | Kind.resize, Payload.size w h => some (Input.Resize w h)
  | Kind.focus, Payload.flag b => some (Input.Focus b)
  | Kind.cursor, Payload.flag b => some (Input.Cursor b)
  | _, _ => none

/-- `event_id` of the minimal aggregate. -/
def inputEventId (e : InputEvent) : EventId := (inputKind e.input).id

/-- `with_args` of the minimal aggregate. -/
def inputWithArgs (e : InputEvent) (id : EventId) : Option Payload :=
  if id = (inputKind e.input).id then some (inputPayload e.input) else none

/-- `from_args` of the minimal aggregate: `none` for the kinds an `Input`
cannot represent (the old value carries no further context to preserve). -/
def inputFromArgs (id : EventId) (p : Payload) (_old : InputEvent) : Option InputEvent :=
  (kindOfId id).bind fun k => (mkInput k p).map fun i => InputEvent.mk i

/-- The minimal aggregate's `GenericEvent` implementation. -/
def inputGE : GenericEvent InputEvent :=
  { event_id := inputEventId, with_args := inputWithArgs, from_args := inputFromArgs }

/-- Example left-mouse-button value from the spec's §8 scenario. -/
def exButton : Button := Button.Mouse MouseButton.Left

/-- Example host aggregate: tagged focus, carrying custom context 7. -/
def hostOld : HostEvent := HostEvent.mk (EventVariant.focus true) 7

/-- The host aggregate `hostOld` rebuilt around a press of `exButton`. -/
def hostPressEv : HostEvent := HostEvent.mk (EventVariant.press exButton) 7

/-- The host aggregate `hostOld` rebuilt around an 800×600 resize. -/
def hostResizeEv : HostEvent := HostEvent.mk (EventVariant.resize 800 600) 7

/-- Example minimal aggregate wrapping a focus input. -/
def inputOld : InputEvent := InputEvent.mk (Input.Focus true)

/-- The minimal aggregate carrying the text "hi". -/
def inputTextEv : InputEvent := InputEvent.mk (Input.Text "hi")

/-- Registered kinds are found back by `kindOfId` under their own id. -/
theorem kindOfId_id : ∀ k : Kind, kindOfId k.id = some k := by
  intro k
  cases k <;> decide

/-- Whatever `kindOfId` finds is registered under the queried id. -/
theorem kindOfId_some {id : EventId} {k : Kind} (h : kindOfId id = some k) :
    k.id = id := by
  have hp := List.find?_some h
  exact of_decide_eq_true hp

/-- The kind → id mapping is injective. -/
theorem kindId_inj {k k2 : Kind} (h : k.id = k2.id) : k = k2 := by
  have h1 := kindOfId_id k
  have h2 := kindOfId_id k2
  rw [h] at h1
  rw [h1] at h2
  exact Option.some.inj h2

/-- A successful `mkPayloadVariant` returns a variant of the requested kind
carrying exactly the given payload. -/
theorem mkPayloadVariant_spec {k : Kind} {p : Payload} {v : EventVariant}
    (h : mkPayloadVariant k p = some v) :
    variantKind v = k ∧ variantPayload v = p := by
  cases k <;> cases p <;>
    first
      | exact Option.noConfusion h
      | (injection h with h2; subst h2; exact ⟨rfl, rfl⟩)

/-- A successful `mkInput` returns an input of the requested kind carrying
exactly the given payload. -/
theorem mkInput_spec {k : Kind} {p : Payload} {i : Input}
    (h : mkInput k p = some i) :
    inputKind i = k ∧ inputPayload i = p := by
  cases k <;> cases p <;>
    first
      | exact Option.noConfusion h
      | (injection h with h2; subst h2; exact ⟨rfl, rfl⟩)

/-- The host aggregate's implementation satisfies the §4.4 contract. -/
theorem hostGE_lawful : LawfulGenericEvent hostGE := by
  constructor
  · intro e id hne
    show hostWithArgs e id = none
    unfold hostWithArgs
    rw [if_neg]
    intro hcontra
    exact hne hcontra.symm
  · intro e
    show (hostWithArgs e (hostEventId e)).isSome = true
    unfold hostWithArgs hostEventId
    rw [if_pos rfl]
    rfl
  · intro id p old e h
    show hostEventId e = id
    replace h : hostFromArgs id p old = some e := h
    unfold hostFromArgs at h
    cases hk : kindOfId id with
    | none => rw [hk] at h; simp at h
    | some k =>
      rw [hk] at h
      simp only [Option.some_bind] at h
      cases hv : mkPayloadVariant k p with
      | none => rw [hv] at h; simp at h
      | some v =>
        rw [hv] at h
        simp only [Option.map_some'] at h
        have he := (Option.some.inj h).symm
        subst he
        unfold hostEventId
        rw [(mkPayloadVariant_spec hv).1]
        exact kindOfId_some hk
  · intro id p old e h
    replace h : hostFromArgs id p old = some e := h
    unfold hostFromArgs at h
    cases hk : kindOfId id with
    | none => rw [hk] at h; simp at h
    | some k =>
      rw [hk] at h
      simp only [Option.some_bind] at h
      cases hv : mkPayloadVariant k p with
      | none => rw [hv] at h; simp at h
      | some v =>
        rw [hv] at h
        simp only [Option.map_some'] at h
        have he := (Option.some.inj h).symm
        subst he
        show hostWithArgs _ id = some p
        unfold hostWithArgs
        have hkid := (mkPayloadVariant_spec hv).1
        have hpay := (mkPayloadVariant_spec hv).2
        simp [hkid, kindOfId_some hk, hpay]

/-- Derived `PartialEq` on `Button` agrees with propositional equality
(structural comparison on a sum of decidable leaf types). -/
theorem buttonBeq_eq_decide (a b : Button) : buttonBeq a b = decide (a = b) := by
  cases a <;> cases b <;> simp [buttonBeq]

/-- C2: every widening conversion (`Key → Button`, `MouseButton → Button`,
`JoystickButton → Button`, `JoystickAxisArgs → Motion`, `Motion → Input`)
is total and lossless — converting and then extracting the payload back out
of the resulting variant yields the original input, and each conversion is
exactly the corresponding variant constructor. -/
theorem conversion_widening_roundtrip :
    (∀ k : Key, Button.fromKey k = Button.Keyboard k ∧
      (Button.fromKey k).asKeyboard = some k) ∧
    (∀ m : MouseButton, Button.fromMouseButton m = Button.Mouse m ∧
      (Button.fromMouseButton m).asMouse = some m) ∧
    (∀ j : JoystickButton, Button.fromJoystickButton j = Button.Joystick j ∧
      (Button.fromJoystickButton j).asJoystick = some j) ∧
    (∀ a : JoystickAxisArgs, Motion.fromJoystickAxisArgs a = Motion.JoystickAxis a ∧
      (Motion.fromJoystickAxisArgs a).asJoystickAxis = some a) ∧
    (∀ m : Motion, Input.fromMotion m = Input.Move m ∧
      (Input.fromMotion m).asMove = some m) :=
  ⟨fun _ => ⟨rfl, rfl⟩, fun _ => ⟨rfl, rfl⟩, fun _ => ⟨rfl, rfl⟩,
   fun _ => ⟨rfl, rfl⟩, fun _ => ⟨rfl, rfl⟩⟩

/-- C5: the identity registry defines exactly 14 `EventId` constants, the
tokens are pairwise distinct under `EventId` equality (string content), and
every token is namespaced under "piston/". -/
theorem event_id_registry_total_injective :
    allEventIds.length = 14 ∧ allEventIds.Nodup ∧
    ∀ i ∈ allEventIds, ∃ s, i.token = "piston/" ++ s := by
  refine ⟨rfl, by decide, ?_⟩
  intro i hi
  fin_cases hi
  · exact ⟨"focus", by decide⟩
  · exact ⟨"cursor", by decide⟩
  · exact ⟨"resize", by decide⟩
  · exact ⟨"text", by decide⟩
  · exact ⟨"mouse_scroll", by decide⟩
  · exact ⟨"mouse_relative", by decide⟩
  · exact ⟨"mouse_cursor", by decide⟩
  · exact ⟨"joystick_axis", by decide⟩
  · exact ⟨"release", by decide⟩
  · exact ⟨"press", by decide⟩
  · exact ⟨"idle", by decide⟩
  · exact ⟨"after_render", by decide⟩
  · exact ⟨"render", by decide⟩
  · exact ⟨"update", by decide⟩

/-- Witness for C5 at the `FOCUS` constant. -/
theorem event_id_registry_total_injective_witness :
    allEventIds.length = 14 ∧ ∃ s, FOCUS.token = "piston/" ++ s :=
  ⟨event_id_registry_total_injective.1,
   event_id_registry_total_injective.2.2 FOCUS (by decide)⟩

/-- C6: `Input` is a closed tagged union over exactly the seven variants
Press, Release, Move, Text, Resize, Focus, Cursor — every `Input` value is
exactly one of the seven forms, so a case split over them is exhaustive. -/
theorem input_closed_seven_variants :
    ∀ i : Input,
      (∃ b, i = Input.Press b) ∨ (∃ b, i = Input.Release b) ∨
      (∃ m, i = Input.Move m) ∨ (∃ s, i = Input.Text s) ∨
      (∃ w h, i = Input.Resize w h) ∨ (∃ b, i = Input.Focus b) ∨
      (∃ b, i = Input.Cursor b) := by
  intro i
  cases i with
  | Press b => exact Or.inl ⟨b, rfl⟩
  | Release b => exact Or.inr (Or.inl ⟨b, rfl⟩)
  | Move m => exact Or.inr (Or.inr (Or.inl ⟨m, rfl⟩))
  | Text s => exact Or.inr (Or.inr (Or.inr (Or.inl ⟨s, rfl⟩)))
  | Resize w h => exact Or.inr (Or.inr (Or.inr (Or.inr (Or.inl ⟨w, h, rfl⟩))))
  | Focus b => exact Or.inr (Or.inr (Or.inr (Or.inr (Or.inr (Or.inl ⟨b, rfl⟩)))))
  | Cursor b => exact Or.inr (Or.inr (Or.inr (Or.inr (Or.inr (Or.inr ⟨b, rfl⟩)))))

/-- C7: derived structural equality on `Button` is a decidable equivalence
(reflexive, symmetric, transitive), and the structural hash is consistent
with it (equal buttons hash equally). -/
theorem button_eq_equivalence_and_hash_consistent :
    (∀ a : Button, buttonBeq a a = true) ∧
    (∀ a b : Button, buttonBeq a b = buttonBeq b a) ∧
    (∀ a b c : Button, buttonBeq a b = true → buttonBeq b c = true →
      buttonBeq a c = true) ∧
    (∀ a b : Button, buttonBeq a b = true → buttonHash a = buttonHash b) := by
  refine ⟨?_, ?_, ?_, ?_⟩
  · intro a
    rw [buttonBeq_eq_decide]
    simp
  · intro a b
    rw [buttonBeq_eq_decide, buttonBeq_eq_decide]
    exact decide_eq_decide.mpr ⟨Eq.symm, Eq.symm⟩
  · intro a b c hab hbc
    rw [buttonBeq_eq_decide] at hab hbc ⊢
    exact decide_eq_true ((of_decide_eq_true hab).trans (of_decide_eq_true hbc))
  · intro a b hab
    rw [buttonBeq_eq_decide] at hab
    rw [of_decide_eq_true hab]

/-- Witness for C7 at a concrete button. -/
theorem button_eq_equivalence_and_hash_consistent_witness :
    buttonBeq exButton exButton = true ∧ buttonHash exButton = buttonHash exButton :=
  ⟨button_eq_equivalence_and_hash_consistent.2.2.1 exButton exButton exButton
     (by decide) (by decide),
   button_eq_equivalence_and_hash_consistent.2.2.2 exButton exButton (by decide)⟩

/-- C9: `Motion` equality is only a partial equivalence: the derived float
equality is not reflexive at a NaN coordinate, so `Motion` can implement
`PartialEq` but not `Eq`. -/
theorem motion_partial_eq_not_reflexive :
    motionBeq (Motion.MouseCursor F64.nan (F64.finite 0))
      (Motion.MouseCursor F64.nan (F64.finite 0)) = false ∧
    ∃ m : Motion, motionBeq m m = false :=
  ⟨by decide, ⟨Motion.MouseCursor F64.nan (F64.finite 0), by decide⟩⟩

/-- C8 counterexample: a `Motion` value whose coordinate field is NaN is
representable, so it is false that every `Motion` has finite `MouseCursor` /
`MouseRelative` / `MouseScroll` coordinates. -/
theorem motion_finite_coords_counterexample :
    Motion.mouseCoordsFinite (Motion.MouseCursor F64.nan (F64.finite 0)) = false ∧
    ¬ ∀ m : Motion, Motion.mouseCoordsFinite m = true :=
  ⟨by decide,
   fun h => absurd (h (Motion.MouseCursor F64.nan (F64.finite 0))) (by decide)⟩

/-- C8 amended: `Motion` coordinate fields are double-precision values with
no finiteness invariant enforced by this layer — the constructors accept any
`f64` including NaN and the infinities, and a non-finite-coordinate value
exists. -/
theorem motion_no_finiteness_invariant :
    (∀ x y : F64,
      Motion.mouseCoordsFinite (Motion.MouseCursor x y) = (x.isFinite && y.isFinite) ∧
      Motion.mouseCoordsFinite (Motion.MouseRelative x y) = (x.isFinite && y.isFinite) ∧
      Motion.mouseCoordsFinite (Motion.MouseScroll x y) = (x.isFinite && y.isFinite)) ∧
    (∃ m : Motion, Motion.mouseCoordsFinite m = false) :=
  ⟨fun _ _ => ⟨rfl, rfl, rfl⟩, ⟨Motion.MouseCursor F64.nan (F64.finite 0), by decide⟩⟩

/-- C10: the set of `EventId` values is not closed by the type — any string
yields a constructible `EventId`, such a value equals a registered constant
exactly when its string content matches that constant's token, and ids
outside the 14 registered tokens exist. -/
theorem event_id_open_construction :
    (∀ s : String, ∀ c ∈ allEventIds, (EventId.mk s = c ↔ s = c.token)) ∧
    EventId.mk "custom/event" ∉ allEventIds := by
  constructor
  · intro s c _
    constructor
    · intro h
      rw [← h]
    · intro h
      cases c with
      | mk t => rw [h]
  · decide

/-- Witness for C10 at the `FOCUS` constant. -/
theorem event_id_open_construction_witness : EventId.mk "piston/focus" = FOCUS :=
  (event_id_open_construction.1 "piston/focus" FOCUS (by decide)).mpr (by decide)

/-- C1: for every host aggregate type with a `GenericEvent` implementation
satisfying the §4.4 contract and every one of the 14 kinds, constructing an
aggregate via that kind's constructor (`from_args` at the kind's id with a
payload of the kind's type) and then reading the same kind's typed getter
returns `some` of the payload passed in, and every other kind's getter on
that same aggregate value returns `none`. -/
theorem generic_event_kind_getter_roundtrip {E : Type} (g : GenericEvent E)
    (hg : LawfulGenericEvent g) (k : Kind) (p : Payload)
    (hp : payloadShapeOk k p = true) (old e : E)
    (h : g.from_args k.id p old = some e) :
    kindGetter g k e = some p ∧
    ∀ k2 : Kind, k2 ≠ k → kindGetter g k2 e = none := by
  have hid := hg.from_args_id k.id p old e h
  have hpay := hg.from_args_payload k.id p old e h
  constructor
  · unfold kindGetter
    rw [hpay]
    simp [hp]
  · intro k2 hne
    have hne2 : g.event_id e ≠ k2.id := by
      rw [hid]
      intro hcontra
      exact hne (kindId_inj hcontra.symm)
    unfold kindGetter
    rw [hg.with_args_mismatch e k2.id hne2]
    rfl

/-- Witness for C1: the host aggregate rebuilt around a press of the left
mouse button answers the press getter with that button and the resize
getter with `none`. -/
theorem generic_event_kind_getter_roundtrip_witness :
    kindGetter hostGE Kind.press hostPressEv = some (Payload.button exButton) ∧
    kindGetter hostGE Kind.resize hostPressEv = none :=
  ⟨(generic_event_kind_getter_roundtrip hostGE hostGE_lawful Kind.press
      (Payload.button exButton) (by decide) hostOld hostPressEv (by decide)).1,
   (generic_event_kind_getter_roundtrip hostGE hostGE_lawful Kind.press
      (Payload.button exButton) (by decide) hostOld hostPressEv (by decide)).2
     Kind.resize (by decide)⟩

/-- C3: on the host aggregate carrying custom context, `from_args` (and in
particular `from_resize`) preserves every field unrelated to the targeted
kind — the rebuilt value keeps the old custom context and replaces only the
active variant. -/
theorem host_from_args_preserves_context :
    (∀ id p (old e : HostEvent), hostGE.from_args id p old = some e →
      e.ctx = old.ctx) ∧
    (∀ (w h : Nat) (old : HostEvent),
      from_resize hostGE w h old =
        some (HostEvent.mk (EventVariant.resize w h) old.ctx)) := by
  constructor
  · intro id p old e h
    replace h : hostFromArgs id p old = some e := h
    unfold hostFromArgs at h
    cases hk : kindOfId id with
    | none => rw [hk] at h; simp at h
    | some k =>
      rw [hk] at h
      simp only [Option.some_bind] at h
      cases hv : mkPayloadVariant k p with
      | none => rw [hv] at h; simp at h
      | some v =>
        rw [hv] at h
        simp only [Option.map_some'] at h
        have he := (Option.some.inj h).symm
        subst he
        rfl
  · intro w h old
    show hostFromArgs RESIZE (Payload.size w h) old = _
    have hres : kindOfId RESIZE = some Kind.resize := kindOfId_id Kind.resize
    unfold hostFromArgs
    rw [hres]
    rfl

/-- Witness for C3: rebuilding the focus-tagged aggregate with context 7
into an 800×600 resize keeps the context. -/
theorem host_from_args_preserves_context_witness :
    hostResizeEv.ctx = hostOld.ctx :=
  host_from_args_preserves_context.1 RESIZE (Payload.size 800 600) hostOld
    hostResizeEv (by decide)

/-- C4: on the minimal aggregate that only carries an `Input`, asking the
constructor for any of the four kinds it cannot represent (update, render,
after-render, idle) returns `none` (the functions are total, so no crash),
and every successful construction is consistently paired: the result is
tagged with the requested id and carries exactly the given payload. -/
theorem input_event_unsupported_kind_none :
    (∀ p (old : InputEvent),
      inputGE.from_args UPDATE p old = none ∧
      inputGE.from_args RENDER p old = none ∧
      inputGE.from_args AFTER_RENDER p old = none ∧
      inputGE.from_args IDLE p old = none) ∧
    (∀ id p (old e : InputEvent), inputGE.from_args id p old = some e →
      inputGE.event_id e = id ∧ inputGE.with_args e id = some p) := by
  constructor
  · intro p old
    have hu : kindOfId UPDATE = some Kind.update := kindOfId_id Kind.update
    have hr : kindOfId RENDER = some Kind.render := kindOfId_id Kind.render
    have ha : kindOfId AFTER_RENDER = some Kind.afterRender :=
      kindOfId_id Kind.afterRender
    have hi : kindOfId IDLE = some Kind.idle := kindOfId_id Kind.idle
    refine ⟨?_, ?_, ?_, ?_⟩
    · show inputFromArgs UPDATE p old = none
      unfold inputFromArgs
      rw [hu]
      simp only [Option.some_bind]
      cases p <;> rfl
    · show inputFromArgs RENDER p old = none
      unfold inputFromArgs
      rw [hr]
      simp only [Option.some_bind]
      cases p <;> rfl
    · show inputFromArgs AFTER_RENDER p old = none
      unfold inputFromArgs
      rw [ha]
      simp only [Option.some_bind]
      cases p <;> rfl
    · show inputFromArgs IDLE p old = none
      unfold inputFromArgs
      rw [hi]
      simp only [Option.some_bind]
      cases p <;> rfl
  · intro id p old e h
    replace h : inputFromArgs id p old = some e := h
    unfold inputFromArgs at h
    cases hk : kindOfId id with
    | none => rw [hk] at h; simp at h
    | some k =>
      rw [hk] at h
      simp only [Option.some_bind] at h
      cases hv : mkInput k p with
      | none => rw [hv] at h; simp at h
      | some i =>
        rw [hv] at h
        simp only [Option.map_some'] at h
        have he := (Option.some.inj h).symm
        subst he
        have hki := mkInput_spec hv
        constructor
        · show inputEventId _ = id
          unfold inputEventId
          show (inputKind i).id = id
          rw [hki.1]
          exact kindOfId_some hk
        · show inputWithArgs _ id = some p
          unfold inputWithArgs
          show (if id = (inputKind i).id then some (inputPayload i) else none) = some p
          simp [hki.1, kindOfId_some hk, hki.2]

/-- Witness for C4: a successful construction on the minimal aggregate (a
text event) is consistently tagged and carries the given payload. -/
theorem input_event_unsupported_kind_none_witness :
    inputGE.event_id inputTextEv = TEXT ∧
    inputGE.with_args inputTextEv TEXT = some (Payload.text "hi") :=
  input_event_unsupported_kind_none.2 TEXT (Payload.text "hi") inputOld
    inputTextEv (by decide)
